import Mathlib

/-!
Shallow embedding of `drivers/staging/fbtft/fb_st7789v.c` (ST7789V LCD
controller driver) and proofs about its four callback operations
(`init_display`, `set_var`, `set_gamma`, `blank`) and its static panel
descriptor `display`.

The driver's only observable behaviour is the sequence of bus operations it
issues (reset pulses, millisecond delays, and register writes of one command
byte plus parameter values) together with its integer return status and, for
`set_gamma`, the in-place mutation of the caller's curve buffer.  We model a
bus operation as an `Event` and each callback as a pure function returning
the list of events it emits.
-/

namespace ST7789V

/-- One observable bus-side operation of the driver: a reset pulse
(`par->fbtftops.reset`), a millisecond delay (`mdelay`), or a register write
(`write_reg`: one command, then the parameter values in argument order). -/
inductive Event where
  | reset : Event
  | delay (ms : Nat) : Event
  | write (cmd : Nat) (params : List Nat) : Event
  deriving DecidableEq, Repr

/-- `MADCTL_BGR` = `BIT(3)`: bitmask for RGB/BGR order. -/
def MADCTL_BGR : Nat := 8

/-- `MADCTL_MV` = `BIT(5)`: bitmask for page/column order. -/
def MADCTL_MV : Nat := 32

/-- `MADCTL_MX` = `BIT(6)`: bitmask for column address order. -/
def MADCTL_MX : Nat := 64

/-- `MADCTL_MY` = `BIT(7)`: bitmask for page address order. -/
def MADCTL_MY : Nat := 128

/-- `EINVAL` (invalid argument), as in `<uapi/asm-generic/errno-base.h>`. -/
def EINVAL : Int := 22

/-- `MIPI_DCS_SET_ADDRESS_MODE` from `<video/mipi_display.h>`. -/
def MIPI_DCS_SET_ADDRESS_MODE : Nat := 0x36

/-- `MIPI_DCS_SET_DISPLAY_OFF` from `<video/mipi_display.h>`. -/
def MIPI_DCS_SET_DISPLAY_OFF : Nat := 0x28

/-- `MIPI_DCS_SET_DISPLAY_ON` from `<video/mipi_display.h>`. -/
def MIPI_DCS_SET_DISPLAY_ON : Nat := 0x29

/-- `2^32`, the modulus of the C `u32` arithmetic in `set_var`. -/
def U32 : Nat := 4294967296

/-- The C expression `offset + res - 1` evaluated in `u32` arithmetic
(`xoffset`/`yoffset` are `u16`, `info->var.xres`/`yres` are `u32`; the sum is
computed modulo `2^32` and the subtraction of 1 wraps on underflow). -/
def endCoord (offset res : Nat) : Nat := (offset + res + (U32 - 1)) % U32

/-- The tail of `set_var` shared by all four supported rotations: the
`MADCTL` write followed by the `CASET` (0x2A) and `RASET` (0x2B) window
writes

    write_reg(par, MIPI_DCS_SET_ADDRESS_MODE, madctl_par);
    write_reg(par, 0x2A, 0x00, xoffset, 0x00, xoffset + info->var.xres - 1);
    write_reg(par, 0x2B, 0x00, yoffset, 0x00, yoffset + info->var.yres - 1);
    return 0; -/
def set_var_writes (madctl_par xoffset yoffset xres yres : Nat) :
    Except Int (List Event) :=
  Except.ok
    [Event.write MIPI_DCS_SET_ADDRESS_MODE [madctl_par],
     Event.write 0x2A [0x00, xoffset, 0x00, endCoord xoffset xres],
     Event.write 0x2B [0x00, yoffset, 0x00, endCoord yoffset yres]]

/-- `set_var(par)`: applies rotation and BGR mode.  Inputs are the fields the
function reads from the device context: `info->var.rotate`, `par->bgr`,
`info->var.xres`, `info->var.yres`.  The result is either the error status
`-EINVAL` (the `default` arm of the `switch`, reached before any
`write_reg`) or the emitted event list; the C `switch` is rendered as the
equivalent chain of equality tests. -/
def set_var (rotate : Nat) (bgr : Bool) (xres yres : Nat) :
    Except Int (List Event) :=
  let madctl_par : Nat := if bgr then MADCTL_BGR else 0
  if rotate = 0 then
    set_var_writes madctl_par 0 20 xres yres
  else if rotate = 90 then
    set_var_writes (madctl_par ||| (MADCTL_MV ||| MADCTL_MY)) 20 0 xres yres
  else if rotate = 180 then
    set_var_writes (madctl_par ||| (MADCTL_MX ||| MADCTL_MY)) 0 0 xres yres
  else if rotate = 270 then
    set_var_writes (madctl_par ||| (MADCTL_MV ||| MADCTL_MX)) 0 20 xres yres
  else
    Except.error (-EINVAL)

/-- `init_display(par)`: the fixed power-up register sequence.  The function
reads nothing from its argument except the reset hook; its event trace and
return status are constant.  The pair is (emitted trace, return value). -/
def init_display : List Event × Int :=
  ([Event.reset,
    Event.delay 50,
    Event.write 0x36 [0x00],
    Event.write 0x3A [0x05],
    Event.write 0xB2 [0x0B, 0x0B, 0x00, 0x33, 0x35],
    Event.write 0xB7 [0x11],
    Event.write 0xBB [0x35],
    Event.write 0xC0 [0x2C],
    Event.write 0xC2 [0x01],
    Event.write 0xC3 [0x0D],
    Event.write 0xC4 [0x20],
    Event.write 0xC6 [0x13],
    Event.write 0xD0 [0xA4, 0xA1],
    Event.write 0xE0 [0xF0, 0x06, 0x0B, 0x0A, 0x09, 0x26, 0x29, 0x33,
                      0x41, 0x18, 0x16, 0x15, 0x29, 0x2D],
    Event.write 0xE1 [0xF0, 0x04, 0x08, 0x08, 0x07, 0x03, 0x28, 0x32,
                      0x40, 0x3B, 0x19, 0x18, 0x2A, 0x2E],
    Event.write 0xE4 [0x25, 0x00, 0x00],
    Event.write 0x21 [],
    Event.write 0x11 [],
    Event.delay 120,
    Event.write 0x29 [],
    Event.delay 200], 0)

/-- `true` iff no two adjacent events of the trace are both register writes,
i.e. every pair of consecutive writes has a delay (or reset) between them. -/
def delaySeparated : List Event → Bool
  | Event.write _ _ :: Event.write _ _ :: _ => false
  | _ :: rest => delaySeparated rest
  | [] => true

/-- `PVGAMCTRL` (positive voltage gamma control) command. -/
def PVGAMCTRL : Nat := 0xE0

/-- `NVGAMCTRL` (negative voltage gamma control) command. -/
def NVGAMCTRL : Nat := 0xE1

/-- The `static const u8 gamma_par_mask[]` table of `set_gamma`: bitmasks for
the gamma curve command parameters. -/
def gamma_par_mask : List Nat :=
  [0xFF, 0x3F, 0x3F, 0x1F, 0x1F, 0x3F, 0x7F, 0x77, 0x7F, 0x3F, 0x1F, 0x1F,
   0x3F, 0x3F]

/-- Pointwise store into a C buffer modelled as `Nat → Nat`:
`upd cs k v` is the buffer after `cs[k] = v`. -/
def upd (cs : Nat → Nat) (k v : Nat) : Nat → Nat :=
  fun x => if x = k then v else cs x

/-- The inner loop of `set_gamma` for one curve with base offset `c`:

    for (j = 0; j < par->gamma.num_values; j++)
        curves[c + j] &= gamma_par_mask[j];

(the C array read `gamma_par_mask[j]` is rendered with `List.getD`; all
executed reads stay below the table length, see `set_gamma_access_bounds`). -/
def maskStep (num_values c : Nat) (curves : Nat → Nat) : Nat → Nat :=
  (List.range num_values).foldl
    (fun cs j => upd cs (c + j) (cs (c + j) &&& gamma_par_mask.getD j 0))
    curves

/-- The 14 parameter values `curves[c + 0], …, curves[c + 13]` passed to the
gamma `write_reg` call. -/
def curveParams (curves : Nat → Nat) (c : Nat) : List Nat :=
  (List.range 14).map fun k => curves (c + k)

/-- `set_gamma(par, curves)`: masks each curve in place, then transmits it.
Inputs are `par->gamma.num_curves`, `par->gamma.num_values` and the caller's
buffer (a C `u32 *`, modelled as `Nat → Nat`); the result is the mutated
buffer, the emitted event trace, and the return status.

    for (i = 0; i < par->gamma.num_curves; i++) {
        c = i * par->gamma.num_values;
        for (j = 0; j < par->gamma.num_values; j++)
            curves[c + j] &= gamma_par_mask[j];
        write_reg(par, PVGAMCTRL + i, curves[c + 0], …, curves[c + 13]);
    }
    return 0; -/
def set_gamma (num_curves num_values : Nat) (curves : Nat → Nat) :
    (Nat → Nat) × List Event × Int :=
  let r := (List.range num_curves).foldl
    (fun st i =>
      let c := i * num_values
      let cs := maskStep num_values c st.1
      (cs, st.2 ++ [Event.write (PVGAMCTRL + i) (curveParams cs c)]))
    (curves, [])
  (r.1, r.2, 0)

/-- The indices `j` at which the inner loop of `set_gamma` reads the static
table `gamma_par_mask` (loop bound `j < num_values`). -/
def gammaMaskTableIdxs (num_values : Nat) : List Nat :=
  List.range num_values

/-- The buffer indices `c + j = i * num_values + j` written (and read, as
`&=` targets) by the masking loop of `set_gamma`. -/
def gammaBufWriteIdxs (num_curves num_values : Nat) : List Nat :=
  (List.range num_curves).flatMap fun i =>
    (List.range num_values).map fun j => i * num_values + j

/-- The buffer indices `c + 0 … c + 13` read by the `write_reg` argument
list of `set_gamma` (14 reads per curve, independent of `num_values`). -/
def gammaBufReadIdxs (num_curves num_values : Nat) : List Nat :=
  (List.range num_curves).flatMap fun i =>
    (List.range 14).map fun k => i * num_values + k

/-- `blank(par, on)`: display blanking toggle.

    if (on)
        write_reg(par, MIPI_DCS_SET_DISPLAY_OFF);
    else
        write_reg(par, MIPI_DCS_SET_DISPLAY_ON);
    return 0; -/
def blank (onFlag : Bool) : List Event × Int :=
  (if onFlag then [Event.write MIPI_DCS_SET_DISPLAY_OFF []]
   else [Event.write MIPI_DCS_SET_DISPLAY_ON []], 0)

/-- The `DEFAULT_GAMMA` string macro of the source file. -/
def DEFAULT_GAMMA : String :=
  "70 2C 2E 15 10 09 48 33 53 0B 19 18 20 25\n70 2C 2E 15 10 09 48 33 53 0B 19 18 20 25"

/-- The `HSD20_IPS_GAMMA` string macro of the source file. -/
def HSD20_IPS_GAMMA : String :=
  "D0 05 0A 09 08 05 2E 44 45 0F 17 16 2B 33\nD0 05 0A 09 08 05 2E 43 45 0F 16 16 2B 33"

/-- The `fbtftops` callback table fields set (or left NULL) by this driver.
A NULL function pointer is `none`. -/
structure fbtft_ops where
  init_display : Option (List Event × Int)
  set_var : Option (Nat → Bool → Nat → Nat → Except Int (List Event))
  set_gamma : Option (Nat → Nat → (Nat → Nat) → (Nat → Nat) × List Event × Int)
  blank : Option (Bool → List Event × Int)

/-- The fields of `struct fbtft_display` the driver's static initializer
mentions, plus `gamma` (left NULL: the `.gamma = HSD20_IPS_GAMMA` line is
commented out in the source). -/
structure fbtft_display where
  regwidth : Nat
  width : Nat
  height : Nat
  buswidth : Nat
  gamma_num : Nat
  gamma_len : Nat
  gamma : Option String
  fbtftops : fbtft_ops

/-- `static struct fbtft_display display`: the panel descriptor.  In the
source, `.gamma` and `.set_gamma = set_gamma` are commented out, so both are
NULL (`none`), and `.gamma_num = 0`, `.gamma_len = 0`. -/
def display : fbtft_display :=
  { regwidth := 8,
    width := 240,
    height := 280,
    buswidth := 8,
    gamma_num := 0,
    gamma_len := 0,
    gamma := none,
    fbtftops :=
      { init_display := some init_display,
        set_var := some set_var,
        set_gamma := none,
        blank := some blank } }

/-- Modelled from the spec: the register-write bus primitive itself
(`write_reg` / the fbtft buswidth-8 transport) is not under `src/`; per the
spec, "each register write is one command byte followed by zero or more
parameter bytes" with bus width 8, so each parameter value is transmitted as
its low byte (value mod 256). -/
def txBytes (params : List Nat) : List Nat :=
  params.map fun v => v % 256

/-! ## Helper lemmas -/

theorem endCoord_eq (offset res : Nat) (h1 : 0 < res) (h2 : offset + res ≤ U32) :
    endCoord offset res = offset + res - 1 := by
  unfold endCoord
  unfold U32 at h2 ⊢
  omega

theorem upd_ne (cs : Nat → Nat) (k v x : Nat) (h : x ≠ k) :
    upd cs k v x = cs x := by
  unfold upd
  rw [if_neg h]

theorem maskStep_succ (n c : Nat) (cs : Nat → Nat) :
    maskStep (n + 1) c cs =
      upd (maskStep n c cs) (c + n)
        (maskStep n c cs (c + n) &&& gamma_par_mask.getD n 0) := by
  unfold maskStep
  rw [List.range_succ, List.foldl_append]
  rfl

theorem maskStep_out (n c idx : Nat) (cs : Nat → Nat)
    (h : idx < c ∨ c + n ≤ idx) : maskStep n c cs idx = cs idx := by
  induction n with
  | zero => rfl
  | succ m ih =>
      rw [maskStep_succ, upd_ne _ _ _ _ (by omega)]
      exact ih (by omega)

/-! ## Claim theorems -/

/-- Claim C1: for every call to `set_var` with rotation in {0, 90, 180, 270},
the computed addressing-mode byte and window offsets equal the fixed table:
rotation 0 sets none of MV/MX/MY (only the BGR bit when applicable) with
xoffset = 0, yoffset = 20; rotation 90 sets MV|MY with xoffset = 20,
yoffset = 0; rotation 180 sets MX|MY with xoffset = 0, yoffset = 0;
rotation 270 sets MV|MX with xoffset = 0, yoffset = 20. -/
theorem set_var_rotation_table (bgr : Bool) (xres yres : Nat) :
    (set_var 0 bgr xres yres = Except.ok
      [Event.write MIPI_DCS_SET_ADDRESS_MODE [if bgr then MADCTL_BGR else 0],
       Event.write 0x2A [0x00, 0, 0x00, endCoord 0 xres],
       Event.write 0x2B [0x00, 20, 0x00, endCoord 20 yres]]) ∧
    (set_var 90 bgr xres yres = Except.ok
      [Event.write MIPI_DCS_SET_ADDRESS_MODE
        [(if bgr then MADCTL_BGR else 0) ||| (MADCTL_MV ||| MADCTL_MY)],
       Event.write 0x2A [0x00, 20, 0x00, endCoord 20 xres],
       Event.write 0x2B [0x00, 0, 0x00, endCoord 0 yres]]) ∧
    (set_var 180 bgr xres yres = Except.ok
      [Event.write MIPI_DCS_SET_ADDRESS_MODE
        [(if bgr then MADCTL_BGR else 0) ||| (MADCTL_MX ||| MADCTL_MY)],
       Event.write 0x2A [0x00, 0, 0x00, endCoord 0 xres],
       Event.write 0x2B [0x00, 0, 0x00, endCoord 0 yres]]) ∧
    (set_var 270 bgr xres yres = Except.ok
      [Event.write MIPI_DCS_SET_ADDRESS_MODE
        [(if bgr then MADCTL_BGR else 0) ||| (MADCTL_MV ||| MADCTL_MX)],
       Event.write 0x2A [0x00, 0, 0x00, endCoord 0 xres],
       Event.write 0x2B [0x00, 20, 0x00, endCoord 20 yres]]) :=
  ⟨rfl, rfl, rfl, rfl⟩

/-- Claim C2: for every rotation value outside {0, 90, 180, 270}, `set_var`
returns `-EINVAL` and performs zero register writes (the error is produced
by the `default` arm of the `switch`, before any `write_reg` call, so the
error result carries no emitted events). -/
theorem set_var_invalid_rotation (rotate : Nat) (bgr : Bool) (xres yres : Nat)
    (h0 : rotate ≠ 0) (h90 : rotate ≠ 90) (h180 : rotate ≠ 180)
    (h270 : rotate ≠ 270) :
    set_var rotate bgr xres yres = Except.error (-EINVAL) := by
  simp [set_var, h0, h90, h180, h270]

/-- Witness for `set_var_invalid_rotation` at rotation 45. -/
theorem set_var_invalid_rotation_witness :
    ((45 : Nat) ≠ 0 ∧ (45 : Nat) ≠ 90 ∧ (45 : Nat) ≠ 180 ∧ (45 : Nat) ≠ 270) ∧
    set_var 45 false 240 280 = Except.error (-EINVAL) :=
  ⟨by decide,
   set_var_invalid_rotation 45 false 240 280 (by decide) (by decide)
     (by decide) (by decide)⟩

/-- Claim C5: for every supported rotation, the window-address register
writes of `set_var` define the active column range
[xoffset, xoffset + xres - 1] and the active row range
[yoffset, yoffset + yres - 1], where xres/yres are the requested resolution
from the device context (stated for resolutions whose end coordinate does
not overflow the `u32` arithmetic). -/
theorem set_var_window_range (rotate : Nat) (bgr : Bool) (xres yres : Nat)
    (hrot : rotate = 0 ∨ rotate = 90 ∨ rotate = 180 ∨ rotate = 270)
    (hx0 : 0 < xres) (hx : xres + 20 ≤ U32)
    (hy0 : 0 < yres) (hy : yres + 20 ≤ U32) :
    ∃ madctl_par xoffset yoffset,
      set_var rotate bgr xres yres = Except.ok
        [Event.write MIPI_DCS_SET_ADDRESS_MODE [madctl_par],
         Event.write 0x2A [0x00, xoffset, 0x00, xoffset + xres - 1],
         Event.write 0x2B [0x00, yoffset, 0x00, yoffset + yres - 1]] := by
  have ex : ∀ o, o ≤ 20 → endCoord o xres = o + xres - 1 := fun o ho =>
    endCoord_eq o xres hx0 (by omega)
  have ey : ∀ o, o ≤ 20 → endCoord o yres = o + yres - 1 := fun o ho =>
    endCoord_eq o yres hy0 (by omega)
  rcases hrot with h | h | h | h <;> subst h
  · refine ⟨if bgr then MADCTL_BGR else 0, 0, 20, ?_⟩
    show Except.ok
        [Event.write MIPI_DCS_SET_ADDRESS_MODE [if bgr then MADCTL_BGR else 0],
         Event.write 0x2A [0x00, 0, 0x00, endCoord 0 xres],
         Event.write 0x2B [0x00, 20, 0x00, endCoord 20 yres]] = _
    rw [ex 0 (by omega), ey 20 (by omega)]
  · refine ⟨(if bgr then MADCTL_BGR else 0) ||| (MADCTL_MV ||| MADCTL_MY), 20, 0, ?_⟩
    show Except.ok
        [Event.write MIPI_DCS_SET_ADDRESS_MODE
          [(if bgr then MADCTL_BGR else 0) ||| (MADCTL_MV ||| MADCTL_MY)],
         Event.write 0x2A [0x00, 20, 0x00, endCoord 20 xres],
         Event.write 0x2B [0x00, 0, 0x00, endCoord 0 yres]] = _
    rw [ex 20 (by omega), ey 0 (by omega)]
  · refine ⟨(if bgr then MADCTL_BGR else 0) ||| (MADCTL_MX ||| MADCTL_MY), 0, 0, ?_⟩
    show Except.ok
        [Event.write MIPI_DCS_SET_ADDRESS_MODE
          [(if bgr then MADCTL_BGR else 0) ||| (MADCTL_MX ||| MADCTL_MY)],
         Event.write 0x2A [0x00, 0, 0x00, endCoord 0 xres],
         Event.write 0x2B [0x00, 0, 0x00, endCoord 0 yres]] = _
    rw [ex 0 (by omega), ey 0 (by omega)]
  · refine ⟨(if bgr then MADCTL_BGR else 0) ||| (MADCTL_MV ||| MADCTL_MX), 0, 20, ?_⟩
    show Except.ok
        [Event.write MIPI_DCS_SET_ADDRESS_MODE
          [(if bgr then MADCTL_BGR else 0) ||| (MADCTL_MV ||| MADCTL_MX)],
         Event.write 0x2A [0x00, 0, 0x00, endCoord 0 xres],
         Event.write 0x2B [0x00, 20, 0x00, endCoord 20 yres]] = _
    rw [ex 0 (by omega), ey 20 (by omega)]

/-- Witness for `set_var_window_range` at rotation 0, resolution 240x280. -/
theorem set_var_window_range_witness :
    ((0 : Nat) = 0 ∨ (0 : Nat) = 90 ∨ (0 : Nat) = 180 ∨ (0 : Nat) = 270) ∧
    0 < 240 ∧ 240 + 20 ≤ U32 ∧ 0 < 280 ∧ 280 + 20 ≤ U32 ∧
    (∃ madctl_par xoffset yoffset,
      set_var 0 false 240 280 = Except.ok
        [Event.write MIPI_DCS_SET_ADDRESS_MODE [madctl_par],
         Event.write 0x2A [0x00, xoffset, 0x00, xoffset + 240 - 1],
         Event.write 0x2B [0x00, yoffset, 0x00, yoffset + 280 - 1]]) :=
  ⟨by decide, by decide, by decide, by decide, by decide,
   set_var_window_range 0 false 240 280 (by decide) (by decide) (by decide)
     (by decide) (by decide)⟩

/-- Claim C6: for every rotation in {0, 90, 180, 270}, if the BGR
color-order flag is set, the addressing-mode byte written by `set_var` has
the BGR bit set, independently of the selected rotation. -/
theorem set_var_bgr_bit (rotate : Nat) (xres yres : Nat)
    (hrot : rotate = 0 ∨ rotate = 90 ∨ rotate = 180 ∨ rotate = 270) :
    ∃ madctl_par rest,
      set_var rotate true xres yres =
        Except.ok (Event.write MIPI_DCS_SET_ADDRESS_MODE [madctl_par] :: rest) ∧
      madctl_par &&& MADCTL_BGR = MADCTL_BGR := by
  rcases hrot with h | h | h | h <;> subst h <;> exact ⟨_, _, rfl, by decide⟩

/-- Witness for `set_var_bgr_bit` at rotation 90. -/
theorem set_var_bgr_bit_witness :
    ((90 : Nat) = 0 ∨ (90 : Nat) = 90 ∨ (90 : Nat) = 180 ∨ (90 : Nat) = 270) ∧
    (∃ madctl_par rest,
      set_var 90 true 280 240 =
        Except.ok (Event.write MIPI_DCS_SET_ADDRESS_MODE [madctl_par] :: rest) ∧
      madctl_par &&& MADCTL_BGR = MADCTL_BGR) :=
  ⟨by decide, set_var_bgr_bit 90 280 240 (by decide)⟩

/-- Claim C9: in every window-address write emitted by `set_var`, the high
byte of each of the four transmitted coordinates is the constant 0x00 and
the low byte is the computed coordinate reduced modulo 256 (the parameters
in the high-byte positions are the literal 0x00, never a computed high
byte); hence an end coordinate of 256 or more is transmitted truncated. -/
theorem set_var_tx_truncation (rotate : Nat) (bgr : Bool) (xres yres : Nat)
    (hrot : rotate = 0 ∨ rotate = 90 ∨ rotate = 180 ∨ rotate = 270) :
    ∃ madctl_par xoffset yoffset,
      set_var rotate bgr xres yres = Except.ok
        [Event.write MIPI_DCS_SET_ADDRESS_MODE [madctl_par],
         Event.write 0x2A [0x00, xoffset, 0x00, endCoord xoffset xres],
         Event.write 0x2B [0x00, yoffset, 0x00, endCoord yoffset yres]] ∧
      txBytes [0x00, xoffset, 0x00, endCoord xoffset xres] =
        [0, xoffset, 0, endCoord xoffset xres % 256] ∧
      txBytes [0x00, yoffset, 0x00, endCoord yoffset yres] =
        [0, yoffset, 0, endCoord yoffset yres % 256] := by
  rcases hrot with h | h | h | h <;> subst h <;>
    refine ⟨_, _, _, rfl, ?_, ?_⟩ <;> simp [txBytes]

/-- Witness for `set_var_tx_truncation` at rotation 90 with xres = 280: the
computed end coordinate 20 + 280 - 1 = 299 is transmitted as 299 % 256 = 43
with a constant 0x00 high byte. -/
theorem set_var_tx_truncation_witness :
    ((90 : Nat) = 0 ∨ (90 : Nat) = 90 ∨ (90 : Nat) = 180 ∨ (90 : Nat) = 270) ∧
    endCoord 20 280 = 299 ∧ endCoord 20 280 % 256 = 43 ∧
    (∃ madctl_par xoffset yoffset,
      set_var 90 false 280 240 = Except.ok
        [Event.write MIPI_DCS_SET_ADDRESS_MODE [madctl_par],
         Event.write 0x2A [0x00, xoffset, 0x00, endCoord xoffset 280],
         Event.write 0x2B [0x00, yoffset, 0x00, endCoord yoffset 240]] ∧
      txBytes [0x00, xoffset, 0x00, endCoord xoffset 280] =
        [0, xoffset, 0, endCoord xoffset 280 % 256] ∧
      txBytes [0x00, yoffset, 0x00, endCoord yoffset 240] =
        [0, yoffset, 0, endCoord yoffset 240 % 256]) :=
  ⟨by decide, by decide, by decide,
   set_var_tx_truncation 90 false 280 240 (by decide)⟩

/-- Claim C3 (counterexample to the claim as stated): the writes of
`init_display` are not each separated by a settle delay — most adjacent
pairs of register writes are issued back-to-back with no delay between
them (e.g. the 0x36 write is immediately followed by the 0x3A write). -/
theorem init_display_writes_not_delay_separated :
    delaySeparated init_display.1 = false := by decide

/-- Claim C3 (amended): `init_display` emits its register writes in the
fixed documented order with no omissions — reset, a 50 ms settle delay,
then the seventeen register writes back-to-back except for a 120 ms delay
after sleep-out (0x11) and a 200 ms delay after display-on (0x29) — and
returns 0 unconditionally. -/
theorem init_display_trace :
    init_display.1 =
      [Event.reset,
       Event.delay 50,
       Event.write 0x36 [0x00],
       Event.write 0x3A [0x05],
       Event.write 0xB2 [0x0B, 0x0B, 0x00, 0x33, 0x35],
       Event.write 0xB7 [0x11],
       Event.write 0xBB [0x35],
       Event.write 0xC0 [0x2C],
       Event.write 0xC2 [0x01],
       Event.write 0xC3 [0x0D],
       Event.write 0xC4 [0x20],
       Event.write 0xC6 [0x13],
       Event.write 0xD0 [0xA4, 0xA1],
       Event.write 0xE0 [0xF0, 0x06, 0x0B, 0x0A, 0x09, 0x26, 0x29, 0x33,
                         0x41, 0x18, 0x16, 0x15, 0x29, 0x2D],
       Event.write 0xE1 [0xF0, 0x04, 0x08, 0x08, 0x07, 0x03, 0x28, 0x32,
                         0x40, 0x3B, 0x19, 0x18, 0x2A, 0x2E],
       Event.write 0xE4 [0x25, 0x00, 0x00],
       Event.write 0x21 [],
       Event.write 0x11 [],
       Event.delay 120,
       Event.write 0x29 [],
       Event.delay 200] ∧
    init_display.2 = 0 :=
  ⟨rfl, rfl⟩

set_option maxHeartbeats 2000000 in
/-- Claim C4: for every input gamma buffer, `set_gamma` with the chip's two
curves of fourteen values transmits, for each curve and each column, exactly
the bitwise AND of the caller's value with that column's fixed mask; it
mutates the caller's buffer in place (each of the 28 curve entries is
masked, every other buffer cell is untouched) and never rejects
out-of-range values (it returns 0 for every buffer). -/
theorem set_gamma_masks (curves : Nat → Nat) :
    (set_gamma 2 14 curves).2.1 =
      [Event.write PVGAMCTRL
        ((List.range 14).map fun j => curves j &&& gamma_par_mask.getD j 0),
       Event.write NVGAMCTRL
        ((List.range 14).map fun j =>
          curves (14 + j) &&& gamma_par_mask.getD j 0)] ∧
    (∀ i, i < 2 → ∀ j, j < 14 →
      (set_gamma 2 14 curves).1 (i * 14 + j) =
        curves (i * 14 + j) &&& gamma_par_mask.getD j 0) ∧
    (∀ idx, 28 ≤ idx → (set_gamma 2 14 curves).1 idx = curves idx) ∧
    (set_gamma 2 14 curves).2.2 = 0 := by
  refine ⟨rfl, ?_, ?_, rfl⟩
  · intro i hi j hj
    interval_cases i <;> interval_cases j <;> rfl
  · intro idx hidx
    have h2 : List.range 2 = [0, 1] := rfl
    simp only [set_gamma, h2, List.foldl_cons, List.foldl_nil]
    rw [maskStep_out 14 (1 * 14) idx _ (Or.inr (by omega)),
        maskStep_out 14 (0 * 14) idx _ (Or.inr (by omega))]

/-- Witness for `set_gamma_masks` on the constant buffer 0xFF: every
transmitted value is the column mask itself, and the return status is 0. -/
theorem set_gamma_masks_witness :
    (set_gamma 2 14 (fun _ => 0xFF)).2.1 =
      [Event.write PVGAMCTRL
        [0xFF, 0x3F, 0x3F, 0x1F, 0x1F, 0x3F, 0x7F, 0x77, 0x7F, 0x3F, 0x1F,
         0x1F, 0x3F, 0x3F],
       Event.write NVGAMCTRL
        [0xFF, 0x3F, 0x3F, 0x1F, 0x1F, 0x3F, 0x7F, 0x77, 0x7F, 0x3F, 0x1F,
         0x1F, 0x3F, 0x3F]] ∧
    (set_gamma 2 14 (fun _ => 0xFF)).2.2 = 0 :=
  ⟨((set_gamma_masks (fun _ => 0xFF)).1).trans (by decide),
   (set_gamma_masks (fun _ => 0xFF)).2.2.2⟩

/-- Claim C7: `blank(true)` and `blank(false)` each emit exactly one
parameterless command — display-off and display-on respectively — the two
commands are distinct, there are no other side effects, and both calls
return 0. -/
theorem blank_commands :
    blank true = ([Event.write MIPI_DCS_SET_DISPLAY_OFF []], 0) ∧
    blank false = ([Event.write MIPI_DCS_SET_DISPLAY_ON []], 0) ∧
    (blank true).1 ≠ (blank false).1 :=
  ⟨rfl, rfl, by decide⟩

/-- Claim C8 (counterexample to the claim as stated): the panel descriptor
does not hold a default gamma curve text and does not reference the
apply-gamma callback — the `.gamma = HSD20_IPS_GAMMA` and
`.set_gamma = set_gamma` initializer lines are commented out in the source,
so both fields are NULL, and gamma support is disabled with
`gamma_num = 0`, `gamma_len = 0` (not "registered but disabled"). -/
theorem display_gamma_unregistered :
    display.gamma = none ∧ display.fbtftops.set_gamma = none ∧
    display.gamma_num = 0 ∧ display.gamma_len = 0 :=
  ⟨rfl, rfl, rfl, rfl⟩

/-- Claim C8 (amended): the static panel descriptor records physical
resolution 240x280 and register/bus width 8, and references three
callbacks — initialize, apply-mode and blank; the apply-gamma callback and
the default gamma curve text exist in the source file but are commented out
of the descriptor, whose gamma fields are NULL with `gamma_num = 0` and
`gamma_len = 0` (gamma support neither registered nor enabled). -/
theorem display_descriptor :
    display.width = 240 ∧ display.height = 280 ∧
    display.regwidth = 8 ∧ display.buswidth = 8 ∧
    display.fbtftops.init_display = some init_display ∧
    display.fbtftops.set_var = some set_var ∧
    display.fbtftops.blank = some blank ∧
    display.fbtftops.set_gamma = none ∧
    display.gamma = none ∧
    display.gamma_num = 0 ∧ display.gamma_len = 0 :=
  ⟨rfl, rfl, rfl, rfl, rfl, rfl, rfl, rfl, rfl, rfl, rfl⟩

/-- Claim C10 (counterexample to the claim as stated): `set_gamma` does not
index the caller's buffer only below `num_curves * num_values`: with
`num_curves = 1`, `num_values = 1` the register write still reads fourteen
entries `curves[0] … curves[13]`, so buffer index 13 (which is not below
1 * 1) is read and affects the emitted trace. -/
theorem set_gamma_reads_beyond_declared :
    (13 ∈ gammaBufReadIdxs 1 1 ∧ ¬ (13 < 1 * 1)) ∧
    (set_gamma 1 1 (fun x => if x = 13 then 0xFF else 0)).2.1 ≠
      (set_gamma 1 1 (fun _ => 0)).2.1 := by decide

/-- Claim C10 (amended): `set_gamma` indexes the 14-entry static mask table
only at indices 0 to `num_values - 1` (all below 14 under the precondition
`num_values ≤ 14`); its masking loop writes the caller's buffer only at
indices below `num_curves * num_values`, but each register write reads
fourteen entries from the curve's base offset, so buffer reads reach up to
`(num_curves - 1) * num_values + 13`; and `set_gamma` returns 0 for every
input buffer. -/
theorem set_gamma_access_bounds (num_curves num_values : Nat)
    (hnv : num_values ≤ 14) (curves : Nat → Nat) :
    (∀ j ∈ gammaMaskTableIdxs num_values, j < num_values ∧ j < 14) ∧
    (∀ idx ∈ gammaBufWriteIdxs num_curves num_values,
      idx < num_curves * num_values) ∧
    (∀ idx ∈ gammaBufReadIdxs num_curves num_values,
      idx ≤ (num_curves - 1) * num_values + 13) ∧
    (set_gamma num_curves num_values curves).2.2 = 0 := by
  refine ⟨?_, ?_, ?_, rfl⟩
  · intro j hj
    rw [gammaMaskTableIdxs, List.mem_range] at hj
    omega
  · intro idx hidx
    simp only [gammaBufWriteIdxs, List.mem_flatMap, List.mem_map,
      List.mem_range] at hidx
    obtain ⟨i, hi, j, hj, rfl⟩ := hidx
    have h1 : i + 1 ≤ num_curves := hi
    calc i * num_values + j < i * num_values + num_values := by omega
      _ = (i + 1) * num_values := by ring
      _ ≤ num_curves * num_values := mul_le_mul_right' h1 num_values
  · intro idx hidx
    simp only [gammaBufReadIdxs, List.mem_flatMap, List.mem_map,
      List.mem_range] at hidx
    obtain ⟨i, hi, k, hk, rfl⟩ := hidx
    have h1 : i * num_values ≤ (num_curves - 1) * num_values :=
      mul_le_mul_right' (by omega) num_values
    omega

/-- Witness for `set_gamma_access_bounds` at the chip's configuration of
two curves of fourteen values. -/
theorem set_gamma_access_bounds_witness :
    (14 : Nat) ≤ 14 ∧
    ((∀ j ∈ gammaMaskTableIdxs 14, j < 14 ∧ j < 14) ∧
     (∀ idx ∈ gammaBufWriteIdxs 2 14, idx < 2 * 14) ∧
     (∀ idx ∈ gammaBufReadIdxs 2 14, idx ≤ (2 - 1) * 14 + 13) ∧
     (set_gamma 2 14 (fun _ => 0)).2.2 = 0) :=
  ⟨by decide, set_gamma_access_bounds 2 14 (by decide) (fun _ => 0)⟩

end ST7789V
